import Mathlib

/-!
# Verification of the briefly job-persistence and curation subsystems

Shallow embedding of `src/briefly/services/jobs.py` (the `Job` record, the
`SQLiteBackend` and `PostgreSQLBackend` storage backends, and the `JobService`
facade) and of the fetch/aggregation logic of
`src/briefly/services/curation.py` (`CurationService.create_briefing`).

Modelling conventions:
* The database is a list of rows (`DB := List JobRow`); SQL `UPDATE ... WHERE
  id = ?` is a `List.map` that rewrites the matching rows, `INSERT` appends,
  and `SELECT ... WHERE id = ?` is `List.find?`.  The `PRIMARY KEY`
  uniqueness constraint is not re-implemented; theorems that depend on it
  carry an explicit freshness hypothesis.
* Timestamps (`datetime.now(timezone.utc)` / `NOW()`) are `Nat` instants
  passed explicitly as a `now` argument.
* JSON-serialisable Python values are the inductive `JVal`.  The standard
  library round trip `json.loads (json.dumps v) = v` is modelled as the
  identity, so a JSON column stores `Option JVal`.  Python truthiness
  (`if job.input`, `if row["progress"]`) is `pyTruthy`; note that
  `json.dumps` never returns the empty string, so read-side truthiness tests
  on the dumped text are always true and only the write-side tests remain.
* `asyncpg` raises when a parameter under an `::uuid` cast is not valid UUID
  text; this fallible path is an `Except String` result.  `asyncpg` returns
  `JSONB` columns as Python `str` (no type codec is registered anywhere in
  the repository), modelled by decoding a stored `JVal` to `.str (dumps v)`.
* `async` functions have no observable concurrency in these claims; they are
  modelled as pure functions, with exceptional outcomes of collaborator
  calls (timeout / raised exception) passed in as explicit outcome values.
-/

namespace Briefly

/-- JSON-serialisable Python values (arguments of `json.dumps` /
results of `json.loads`). Numbers are restricted to integers; none of the
verified code paths computes with numeric payloads. -/
inductive JVal where
  | null
  | bool (b : Bool)
  | num (n : Int)
  | str (s : String)
  | arr (elts : List JVal)
  | obj (fields : List (String × JVal))

/-- Python truthiness (`bool(v)`) of a JSON-like value: `None`, `False`,
`0`, `""`, `[]` and `{}` are falsy, everything else truthy. -/
def pyTruthy : JVal → Bool
  | .null => false
  | .bool b => b
  | .num n => n != 0
  | .str s => !s.isEmpty
  | .arr elts => !elts.isEmpty
  | .obj fields => !fields.isEmpty

/-- String escaping performed by `json.dumps` (default `ensure_ascii`
handling of non-ASCII characters is irrelevant here and omitted: the verified
statements never depend on the exact rendering, only on its shape). -/
def escapeJsonChar (c : Char) : String :=
  if c = '"' then "\\\""
  else if c = '\\' then "\\\\"
  else if c = '\n' then "\\n"
  else if c = '\t' then "\\t"
  else if c = '\r' then "\\r"
  else String.singleton c

mutual

/-- `json.dumps` with default separators (`", "` and `": "`). -/
def dumps : JVal → String
  | .null => "null"
  | .bool true => "true"
  | .bool false => "false"
  | .num n => toString n
  | .str s => "\"" ++ String.join (s.toList.map escapeJsonChar) ++ "\""
  | .arr elts => "[" ++ dumpsList elts ++ "]"
  | .obj fields => "\x7b" ++ dumpsFields fields ++ "\x7d"

/-- Comma-separated rendering of a JSON array body. -/
def dumpsList : List JVal → String
  | [] => ""
  | [v] => dumps v
  | v :: rest => dumps v ++ ", " ++ dumpsList rest

/-- Comma-separated rendering of a JSON object body. -/
def dumpsFields : List (String × JVal) → String
  | [] => ""
  | [(k, v)] => "\"" ++ k ++ "\": " ++ dumps v
  | (k, v) :: rest => "\"" ++ k ++ "\": " ++ dumps v ++ ", " ++ dumpsFields rest

end

/-- One row of the `jobs` table (identical column list in both backends,
`jobs.py` lines 103-119 and 252-268).  JSON columns hold the decoded value
(see the module comment on the `dumps`/`loads` round trip). -/
structure JobRow where
  id : String
  type : String
  status : String
  created_at : Nat
  started_at : Option Nat := none
  completed_at : Option Nat := none
  n8n_execution_id : Option String := none
  n8n_workflow_id : Option String := none
  progress : Option JVal := none
  input : Option JVal := none
  output : Option JVal := none
  error : Option String := none
  source : String := "local"

/-- The `jobs` table. -/
abbrev DB := List JobRow

/-- `status IN ('pending', 'running')` — the filter of `get_active_job`. -/
def isActive (r : JobRow) : Bool :=
  r.status == "pending" || r.status == "running"

/-- Insertion (descending by `created_at`) used to model
`ORDER BY created_at DESC`. -/
def insertByCreatedDesc (r : JobRow) : List JobRow → List JobRow
  | [] => [r]
  | x :: xs =>
    if x.created_at ≤ r.created_at then r :: x :: xs
    else x :: insertByCreatedDesc r xs

/-- `ORDER BY created_at DESC` as an insertion sort. -/
def sortByCreatedDesc (db : DB) : List JobRow :=
  db.foldr insertByCreatedDesc []

/-- `SELECT * FROM jobs WHERE id = <key>` (first matching row). -/
def findRow (db : DB) (key : String) : Option JobRow :=
  db.find? (fun r => r.id == key)

/-- Row transformation of the shared
`UPDATE jobs SET progress = ?, status = 'running',
 started_at = COALESCE(started_at, <now>) WHERE id = <key>` statement
(`jobs.py` lines 170-177 and 313-323). -/
def updateProgressRow (key : String) (progress : JVal) (now : Nat)
    (r : JobRow) : JobRow :=
  if r.id == key then
    { r with progress := some progress, status := "running",
             started_at := some (r.started_at.getD now) }
  else r

/-- Row transformation of `UPDATE jobs SET status = ? WHERE id = <key>`. -/
def updateStatusRow (key status : String) (r : JobRow) : JobRow :=
  if r.id == key then { r with status := status } else r

/-- Row transformation of `UPDATE jobs SET status = 'completed',
completed_at = <now>, output = ? WHERE id = <key>`. -/
def completeRow (key : String) (output : JVal) (now : Nat)
    (r : JobRow) : JobRow :=
  if r.id == key then
    { r with status := "completed", completed_at := some now,
             output := some output }
  else r

/-- Row transformation of `UPDATE jobs SET status = 'failed',
completed_at = <now>, error = ? WHERE id = <key>`. -/
def failRow (key : String) (error : String) (now : Nat) (r : JobRow) : JobRow :=
  if r.id == key then
    { r with status := "failed", completed_at := some now,
             error := some error }
  else r

/-- The row stored by the shared
`INSERT INTO jobs (id, type, status, created_at, input, source)` statement:
only the six listed columns are populated, and the `input` payload passes
through `json.dumps(job.input) if job.input else None` — a *truthiness* test,
so a falsy input (e.g. the empty dict) is stored as SQL `NULL`. -/
def insertedRow (job : JobRow) : JobRow :=
  { id := job.id, type := job.type, status := job.status,
    created_at := job.created_at,
    input := match job.input with
      | some v => if pyTruthy v then some v else none
      | none => none,
    source := job.source }

namespace SQLiteBackend

/-- `SQLiteBackend._row_to_job` (`jobs.py` lines 363-385): JSON columns are
`json.loads`-decoded (identity in the model — the stored text is
`json.dumps` output, which is never empty, so the `if row[...]` guards
always take the decode branch for stored values), `error` is read verbatim,
and `source` falls back to `"local"` when falsy (`row["source"] or "local"`). -/
def _row_to_job (r : JobRow) : JobRow :=
  { r with source := if r.source == "" then "local" else r.source }

/-- `SQLiteBackend.insert_job` (`jobs.py` lines 279-294).  The model appends
the row; the real `PRIMARY KEY` constraint rejects duplicate ids, which
theorems account for with freshness hypotheses. -/
def insert_job (db : DB) (job : JobRow) : DB :=
  db ++ [insertedRow job]

/-- `SQLiteBackend.get_job` (`jobs.py` lines 296-301): parameterised
`SELECT ... WHERE id = ?`; the id is never interpolated, any string is an
opaque value, and no match yields `None`. -/
def get_job (db : DB) (job_id : String) : Option JobRow :=
  (findRow db job_id).map _row_to_job

/-- `SQLiteBackend.get_active_job` (`jobs.py` lines 303-309):
`WHERE status IN ('pending','running') ORDER BY created_at DESC LIMIT 1`. -/
def get_active_job (db : DB) : Option JobRow :=
  (sortByCreatedDesc (db.filter isActive)).head?.map _row_to_job

/-- `SQLiteBackend.update_progress` (`jobs.py` lines 311-323). -/
def update_progress (db : DB) (job_id : String) (progress : JVal)
    (now : Nat) : DB :=
  db.map (updateProgressRow job_id progress now)

/-- `SQLiteBackend.update_status` (`jobs.py` lines 325-330). -/
def update_status (db : DB) (job_id status : String) : DB :=
  db.map (updateStatusRow job_id status)

/-- `SQLiteBackend.complete_job` (`jobs.py` lines 332-344). -/
def complete_job (db : DB) (job_id : String) (output : JVal) (now : Nat) : DB :=
  db.map (completeRow job_id output now)

/-- `SQLiteBackend.fail_job` (`jobs.py` lines 346-354). -/
def fail_job (db : DB) (job_id error : String) (now : Nat) : DB :=
  db.map (failRow job_id error now)

/-- `SQLiteBackend.list_recent` (`jobs.py` lines 356-361):
`ORDER BY created_at DESC LIMIT ?`. -/
def list_recent (db : DB) (limit : Nat) : List JobRow :=
  ((sortByCreatedDesc db).take limit).map _row_to_job

end SQLiteBackend

/-- Hexadecimal digit test (both cases), used by the UUID-literal parser. -/
def isHexDig (c : Char) : Bool :=
  c.isDigit || ('a' ≤ c && c ≤ 'f') || ('A' ≤ c && c ≤ 'F')

/-- An opening or closing curly brace character. -/
def isBraceChar (c : Char) : Bool :=
  c == Char.ofNat 123 || c == Char.ofNat 125

/-- Rebuild the canonical hyphenated 8-4-4-4-12 UUID text from 32 hex
digits. -/
def hyphenate (cs : List Char) : String :=
  String.mk (cs.take 8) ++ "-" ++ String.mk ((cs.drop 8).take 4) ++ "-" ++
    String.mk ((cs.drop 12).take 4) ++ "-" ++
    String.mk ((cs.drop 16).take 4) ++ "-" ++ String.mk (cs.drop 20)

/-- Parsing of a UUID parameter under the `$n::uuid` casts used by every
`PostgreSQLBackend` query.  Follows the textual forms accepted for Python
`uuid.UUID`/asyncpg string parameters: an optional `urn:uuid:` prefix,
optional surrounding braces, hyphens ignored, exactly 32 hex digits
remaining.  Returns the canonical lower-case hyphenated form (the form
`str(uuid4())` produces for every stored id), or `none` when the text is not
a UUID — in which case the driver raises instead of running the query. -/
def pgNormalizeUuid (s : String) : Option String :=
  let cs := s.toList
  let cs1 := if ("urn:uuid:".toList).isPrefixOf cs then cs.drop 9 else cs
  let core :=
    ((cs1.dropWhile isBraceChar).reverse.dropWhile isBraceChar).reverse
  let hexs := core.filter (fun c => c != '-')
  if hexs.length == 32 && hexs.all isHexDig then
    some (hyphenate (hexs.map Char.toLower))
  else none

namespace PostgreSQLBackend

/-- The asyncpg/PostgreSQL error raised when a `::uuid` cast receives text
that is not a UUID. -/
def uuidCastError : String := "invalid input syntax for type uuid"

/-- `PostgreSQLBackend._row_to_job` (`jobs.py` lines 220-235): every column
is passed through verbatim.  asyncpg returns `JSONB` columns as Python `str`
(the repository registers no JSON type codec), so the decoded `progress` /
`input` / `output` payloads are the *text* of the stored JSON value —
modelled with `dumps`; `jsonb` may normalise key order, which none of the
verified statements depend on.  `source` falls back to `"local"` when falsy
(`row["source"] or "local"`). -/
def _row_to_job (r : JobRow) : JobRow :=
  { r with progress := r.progress.map (fun v => .str (dumps v)),
           input := r.input.map (fun v => .str (dumps v)),
           output := r.output.map (fun v => .str (dumps v)),
           source := if r.source == "" then "local" else r.source }

/-- `PostgreSQLBackend.insert_job` (`jobs.py` lines 133-147):
`INSERT ... VALUES ($1::uuid, ...)`; the id is cast, the stored id is the
canonical UUID value.  Duplicate-key behaviour is handled as for SQLite. -/
def insert_job (db : DB) (job : JobRow) : Except String DB :=
  match pgNormalizeUuid job.id with
  | some c => .ok (db ++ [{ insertedRow job with id := c }])
  | none => .error uuidCastError

/-- `PostgreSQLBackend.get_job` (`jobs.py` lines 149-155):
`SELECT * FROM jobs WHERE id = $1::uuid` — the cast raises on non-UUID
text *before* any row is consulted. -/
def get_job (db : DB) (job_id : String) : Except String (Option JobRow) :=
  match pgNormalizeUuid job_id with
  | some c => .ok ((findRow db c).map _row_to_job)
  | none => .error uuidCastError

/-- `PostgreSQLBackend.get_active_job` (`jobs.py` lines 157-165). -/
def get_active_job (db : DB) : Option JobRow :=
  (sortByCreatedDesc (db.filter isActive)).head?.map _row_to_job

/-- `PostgreSQLBackend.update_progress` (`jobs.py` lines 167-177): same
`UPDATE` as the SQLite backend (`NOW()` in place of a client timestamp),
behind the `$2::uuid` cast. -/
def update_progress (db : DB) (job_id : String) (progress : JVal)
    (now : Nat) : Except String DB :=
  match pgNormalizeUuid job_id with
  | some c => .ok (db.map (updateProgressRow c progress now))
  | none => .error uuidCastError

/-- `PostgreSQLBackend.update_status` (`jobs.py` lines 179-186). -/
def update_status (db : DB) (job_id status : String) : Except String DB :=
  match pgNormalizeUuid job_id with
  | some c => .ok (db.map (updateStatusRow c status))
  | none => .error uuidCastError

/-- `PostgreSQLBackend.complete_job` (`jobs.py` lines 188-198). -/
def complete_job (db : DB) (job_id : String) (output : JVal)
    (now : Nat) : Except String DB :=
  match pgNormalizeUuid job_id with
  | some c => .ok (db.map (completeRow c output now))
  | none => .error uuidCastError

/-- `PostgreSQLBackend.fail_job` (`jobs.py` lines 200-210). -/
def fail_job (db : DB) (job_id error : String) (now : Nat) :
    Except String DB :=
  match pgNormalizeUuid job_id with
  | some c => .ok (db.map (failRow c error now))
  | none => .error uuidCastError

/-- `PostgreSQLBackend.list_recent` (`jobs.py` lines 212-218). -/
def list_recent (db : DB) (limit : Nat) : List JobRow :=
  ((sortByCreatedDesc db).take limit).map _row_to_job

end PostgreSQLBackend

namespace JobService

/-- `JobService.create` (`jobs.py` lines 437-453) over the SQLite backend
(the `DATABASE_URL`-unset configuration used by the repository's own test
fixtures): builds a PENDING row with `input = params` and inserts it.  The
`uuid4()` id is passed in as `newId`. -/
def create (db : DB) (newId job_type : String) (params : Option JVal)
    (now : Nat) (source : String := "local") : DB × JobRow :=
  let job : JobRow :=
    { id := newId, type := job_type, status := "pending",
      created_at := now, input := params, source := source }
  (SQLiteBackend.insert_job db job, job)

/-- `JobService.get` — pure pass-through to the backend. -/
def get (db : DB) (job_id : String) : Option JobRow :=
  SQLiteBackend.get_job db job_id

/-- `JobService.get_active` — pure pass-through to the backend. -/
def get_active (db : DB) : Option JobRow :=
  SQLiteBackend.get_active_job db

/-- `JobService.update_progress` — pass-through to the backend. -/
def update_progress (db : DB) (job_id : String) (progress : JVal)
    (now : Nat) : DB :=
  SQLiteBackend.update_progress db job_id progress now

/-- `JobService.update_status` — pass-through to the backend. -/
def update_status (db : DB) (job_id status : String) : DB :=
  SQLiteBackend.update_status db job_id status

/-- `JobService.complete` — pass-through to the backend. -/
def complete (db : DB) (job_id : String) (output : JVal) (now : Nat) : DB :=
  SQLiteBackend.complete_job db job_id output now

/-- `JobService.fail` — pass-through to the backend. -/
def fail (db : DB) (job_id error : String) (now : Nat) : DB :=
  SQLiteBackend.fail_job db job_id error now

/-- `JobService.list_recent` — pure pass-through to the backend. -/
def list_recent (db : DB) (limit : Nat) : List JobRow :=
  SQLiteBackend.list_recent db limit

end JobService

/-- One mutating call issued through the `JobService` facade. -/
inductive Op where
  | create (id jobType : String) (now : Nat) (input : Option JVal)
      (source : String)
  | updateProgress (id : String) (progress : JVal) (now : Nat)
  | updateStatus (id status : String)
  | complete (id : String) (output : JVal) (now : Nat)
  | fail (id msg : String) (now : Nat)

/-- Effect of one `JobService` call on the stored table. -/
def applyOp (db : DB) : Op → DB
  | .create id ty now input src => (JobService.create db id ty input now src).1
  | .updateProgress id p now => JobService.update_progress db id p now
  | .updateStatus id s => JobService.update_status db id s
  | .complete id out now => JobService.complete db id out now
  | .fail id msg now => JobService.fail db id msg now

/-- A whole call sequence, applied left to right. -/
def applyTrace (db : DB) (ops : List Op) : DB :=
  ops.foldl applyOp db

/-- `status ∈ {COMPLETED, FAILED}` — the terminal statuses of the spec's
state machine. -/
def terminalStatus (s : String) : Bool :=
  s == "completed" || s == "failed"

/-- The claimed payload invariant of a row: once terminal, exactly one of
`output`/`error` is non-null; while non-terminal, neither is. -/
def jobPayloadInvariant (r : JobRow) : Bool :=
  if terminalStatus r.status then r.output.isSome != r.error.isSome
  else !r.output.isSome && !r.error.isSome

/-- Lifecycle discipline of a single call against the current table state:
`create` uses a fresh id (the PRIMARY KEY would otherwise reject it),
mutations never target a job that is already terminal, and the
`update_status` escape hatch is not used. -/
def legalOp (db : DB) : Op → Bool
  | .create id _ _ _ _ => db.all (fun r => r.id != id)
  | .updateProgress id _ _ =>
      db.all (fun r => r.id != id || !terminalStatus r.status)
  | .updateStatus _ _ => false
  | .complete id _ _ =>
      db.all (fun r => r.id != id || !terminalStatus r.status)
  | .fail id _ _ =>
      db.all (fun r => r.id != id || !terminalStatus r.status)

/-- Lifecycle discipline of a whole call sequence. -/
def legalTrace (db : DB) : List Op → Bool
  | [] => true
  | op :: ops => legalOp db op && legalTrace (applyOp db op) ops

/-- Effect of one `JobService` call when the service is configured with the
PostgreSQL backend (`DATABASE_URL` set): the same facade dispatching to
`PostgreSQLBackend`; an id that fails the `::uuid` cast raises. -/
def pgApplyOp (db : DB) : Op → Except String DB
  | .create id ty now input src =>
    PostgreSQLBackend.insert_job db
      { id := id, type := ty, status := "pending", created_at := now,
        input := input, source := src }
  | .updateProgress id p now => PostgreSQLBackend.update_progress db id p now
  | .updateStatus id s => PostgreSQLBackend.update_status db id s
  | .complete id out now => PostgreSQLBackend.complete_job db id out now
  | .fail id msg now => PostgreSQLBackend.fail_job db id msg now

/-- A whole call sequence against the PostgreSQL-configured service,
applied left to right; a raised driver error aborts the sequence. -/
def pgApplyTrace : DB → List Op → Except String DB
  | db, [] => .ok db
  | db, op :: ops => (pgApplyOp db op).bind (fun db1 => pgApplyTrace db1 ops)

/-- Lifecycle discipline of one call against the PostgreSQL table, with
ids compared in canonical UUID form (the form the `::uuid` cast stores).
A call whose id does not parse raises before touching any row, so it is
unconstrained here. -/
def pgLegalOp (db : DB) : Op → Bool
  | .create id _ _ _ _ =>
    match pgNormalizeUuid id with
    | some c => db.all (fun r => r.id != c)
    | none => true
  | .updateProgress id _ _ =>
    match pgNormalizeUuid id with
    | some c => db.all (fun r => r.id != c || !terminalStatus r.status)
    | none => true
  | .updateStatus _ _ => false
  | .complete id _ _ =>
    match pgNormalizeUuid id with
    | some c => db.all (fun r => r.id != c || !terminalStatus r.status)
    | none => true
  | .fail id _ _ =>
    match pgNormalizeUuid id with
    | some c => db.all (fun r => r.id != c || !terminalStatus r.status)
    | none => true

/-- Lifecycle discipline of a whole call sequence on the
PostgreSQL-configured service (a raised call aborts the sequence, so
nothing after it is constrained). -/
def pgLegalTrace : DB → List Op → Bool
  | _, [] => true
  | db, op :: ops =>
    pgLegalOp db op &&
      (match pgApplyOp db op with
       | .ok db1 => pgLegalTrace db1 ops
       | .error _ => true)

/-- A sequence of `update_progress(id, p)` calls against the SQLite
backend, each with its own call-time clock value. -/
def runProgressCalls (db : DB) (job_id : String)
    (calls : List (JVal × Nat)) : DB :=
  calls.foldl (fun d c => SQLiteBackend.update_progress d job_id c.1 c.2) db

/-- A sequence of `update_progress(id, p)` calls against the PostgreSQL
backend; a raised driver error aborts the sequence. -/
def pgRunProgressCalls : DB → String → List (JVal × Nat) → Except String DB
  | db, _, [] => .ok db
  | db, job_id, c :: cs =>
    (PostgreSQLBackend.update_progress db job_id c.1 c.2).bind
      (fun db1 => pgRunProgressCalls db1 job_id cs)

/-! ## Curation pipeline (`src/briefly/services/curation.py`) -/

/-- Substring test on character lists. -/
def charsContain (hay pat : List Char) : Bool :=
  match hay with
  | [] => pat.isEmpty
  | _ :: t => pat.isPrefixOf hay || charsContain t pat

/-- Substring test (`pat in hay` in Python). -/
def strContains (hay pat : String) : Bool :=
  charsContain hay.toList pat.toList

/-- `ContentItem` (`adapters/base.py`): only the fields the pipeline reads.
`posted_at` is a `Nat` instant and `metrics` an association list.
`compute_score()` is floating-point arithmetic over the metrics; the
pipeline only uses it as an opaque sort key, supplied by `Collabs.score`. -/
structure ContentItem where
  platform : String
  platform_id : String
  source_identifier : String
  source_name : Option String := none
  content : String
  url : Option String := none
  metrics : List (String × JVal) := []
  posted_at : Nat := 0

/-- `metrics.get(key)`. -/
def dictGet : List (String × JVal) → String → Option JVal
  | [], _ => none
  | (k, v) :: rest, key => if k == key then some v else dictGet rest key

/-- `item.metrics.get("transcript_status") == s`. -/
def transcriptStatusIs (item : ContentItem) (s : String) : Bool :=
  match dictGet item.metrics "transcript_status" with
  | some (.str t) => t == s
  | _ => false

/-- Per-platform fetch status values of the shared `media_status` map
(`curation.py` lines 70-74 and the fetch closures). -/
inductive FetchStatus where
  | pending
  | skipped
  | fetching
  | done
  | timeout
  | failed
deriving DecidableEq

/-- One `media_status` entry: `status`, item `count`, `sources` count and
optional truncated `error` text. -/
structure MediaEntry where
  status : FetchStatus
  count : Nat
  sources : Nat
  error : Option String := none

/-- One entry of `stats["steps"]` — a dict with a `name`, a `status` and
whichever extra keys that step records (absent keys are `none`). -/
structure StepEntry where
  name : String
  status : String
  error : Option String := none
  count : Option Nat := none
  sources : Option Nat := none
  transcripts : Option Nat := none
  transcripts_taddy : Option Nat := none
  transcripts_local : Option Nat := none
  stored : Option Nat := none
  total : Option Nat := none
  processed : Option Nat := none
  pending : Option Nat := none

/-- The cumulative `stats` object of `create_briefing`.  The wall-clock
`pipeline_duration_seconds` field is outside the model. -/
structure Stats where
  sources_x : Nat
  sources_youtube : Nat
  sources_podcasts : Nat
  items_fetched_x : Nat
  items_fetched_youtube : Nat
  items_fetched_podcasts : Nat
  time_range_hours : Nat
  steps : List StepEntry
  transcripts_fetched : Option Nat := none
  podcast_transcripts_taddy : Option Nat := none
  podcast_transcripts_local : Option Nat := none
  podcast_transcripts_description_only : Option Nat := none
  items_stored_vectorstore : Option Nat := none
  transcripts_summarized : Option Nat := none

/-- Result of awaiting one platform adapter call under `asyncio.wait_for`:
it returns items, times out, or raises. -/
inductive FetchOutcome where
  | ok (items : List ContentItem)
  | timedOut
  | raised (msg : String)

/-- Result of awaiting the podcast adapter call: `fetch_podcasts` performs
a *bare* `await` (no `asyncio.wait_for`), so there is no timeout outcome —
only success or a raised exception (which includes any timeout error raised
inside the adapter itself, handled by the generic `except Exception`). -/
inductive PodFetchOutcome where
  | ok (items : List ContentItem)
  | raised (msg : String)

/-- The `timeout=60.0` of the `asyncio.wait_for` wrapping the X fetch
(`curation.py` line 113). -/
def xFetchTimeoutSeconds : Option Nat := some 60

/-- The `timeout=120.0` of the `asyncio.wait_for` wrapping the YouTube
fetch (`curation.py` line 154). -/
def youtubeFetchTimeoutSeconds : Option Nat := some 120

/-- The podcast fetch (`curation.py` lines 176-225) awaits
`self._podcast_adapter.fetch_content(...)` directly, with no
`asyncio.wait_for` wrapper: it has no timeout. -/
def podcastFetchTimeoutSeconds : Option Nat := none

/-- The rate-limit test of the X error handler (`curation.py` line 131):
`"429" in error_msg or "TooManyRequests" in error_msg or
"rate" in error_msg.lower()`. -/
def xRateLimited (msg : String) : Bool :=
  strContains msg "429" || strContains msg "TooManyRequests" ||
    strContains msg.toLower "rate"

/-- `fetch_x` (`curation.py` lines 98-137): returns the fetched items, the
final `media_status["x"]` entry, and the `stats["steps"]` entries it
appends.  No sources → skipped; timeout → zero items, status `timeout`;
exception → zero items, status `failed` with a bounded error summary. -/
def fetch_x (sources : List String) (o : FetchOutcome) :
    List ContentItem × MediaEntry × List StepEntry :=
  match sources, o with
  | [], _ =>
    ([], { status := .skipped, count := 0, sources := 0 }, [])
  | s :: rest, .ok items =>
    (items,
     { status := .done, count := items.length, sources := (s :: rest).length },
     [])
  | s :: rest, .timedOut =>
    ([],
     { status := .timeout, count := 0, sources := (s :: rest).length,
       error := some "Timed out - try fewer X sources" },
     [{ name := "fetch_x", status := "timeout" }])
  | s :: rest, .raised msg =>
    ([],
     { status := .failed, count := 0, sources := (s :: rest).length,
       error := some (if xRateLimited msg then "Rate limited - wait 15 min"
                      else msg.take 50) },
     [{ name := "fetch_x", status := "failed", error := some msg }])

/-- `fetch_youtube` (`curation.py` lines 139-174). -/
def fetch_youtube (sources : List String) (o : FetchOutcome) :
    List ContentItem × MediaEntry × List StepEntry :=
  match sources, o with
  | [], _ =>
    ([], { status := .skipped, count := 0, sources := 0 }, [])
  | s :: rest, .ok items =>
    (items,
     { status := .done, count := items.length, sources := (s :: rest).length },
     [])
  | s :: rest, .timedOut =>
    ([],
     { status := .timeout, count := 0, sources := (s :: rest).length,
       error := some "Timed out fetching videos" },
     [{ name := "fetch_youtube", status := "timeout" }])
  | s :: rest, .raised msg =>
    ([],
     { status := .failed, count := 0, sources := (s :: rest).length,
       error := some (msg.take 50) },
     [{ name := "fetch_youtube", status := "failed", error := some msg }])

/-- `fetch_podcasts` (`curation.py` lines 176-225): no timeout wrapper;
any exception degrades to zero items with status `failed`. -/
def fetch_podcasts (sources : List String) (o : PodFetchOutcome) :
    List ContentItem × MediaEntry × List StepEntry :=
  match sources, o with
  | [], _ =>
    ([], { status := .skipped, count := 0, sources := 0 }, [])
  | s :: rest, .ok items =>
    (items,
     { status := .done, count := items.length, sources := (s :: rest).length },
     [])
  | s :: rest, .raised msg =>
    ([],
     { status := .failed, count := 0, sources := (s :: rest).length,
       error := some (msg.take 50) },
     [{ name := "fetch_podcasts", status := "failed", error := some msg }])

/-- Result of one `vectorstore.store_content` call: a content id whose
truthiness is `truthy` (`if content_id:`), or a raised exception (logged
and skipped by the archive loop). -/
inductive StoreOutcome where
  | ok (truthy : Bool)
  | raised (msg : String)

/-- The external collaborators `create_briefing` awaits after the fetch
join, supplied as opaque total behaviours: the float-valued
`compute_score` sort key, the vector store, the transcript store /
processor, and the summariser. -/
structure Collabs where
  score : ContentItem → Int
  storeResult : ContentItem → StoreOutcome
  pendingTranscripts : Nat
  processPending : Except String Nat
  summarize : List ContentItem → String
  recommend : List ContentItem → List String → List String

/-- Stable descending insertion by the sort key
(`all_items.sort(key=..., reverse=True)`). -/
def insertByScoreDesc (score : ContentItem → Int) (r : ContentItem) :
    List ContentItem → List ContentItem
  | [] => [r]
  | x :: xs =>
    if score x ≤ score r then r :: x :: xs
    else x :: insertByScoreDesc score r xs

/-- Stable descending sort by the sort key. -/
def sortByScoreDesc (score : ContentItem → Int) (items : List ContentItem) :
    List ContentItem :=
  items.foldr (insertByScoreDesc score) []

/-- The result payload of `create_briefing` (`summary`, `items`,
`recommendations`, `stats`); items are kept as records rather than
re-serialised dicts. -/
structure BriefingResult where
  summary : String
  items : List ContentItem
  recommendations : List String
  stats : Stats

/-- The defined total-failure summary text (`curation.py` line 299). -/
def noContentSummary : String :=
  "No content found from your sources in the specified time range."

/-- `CurationService.create_briefing` (`curation.py` lines 43-396), from
the fetch join onwards.  The three fetches run under `asyncio.gather`; the
step entries appended concurrently inside the fetch closures are modelled
in gather-argument order.  `items_fetched` counts are only assigned inside
the `if <platform>_items:` blocks, but equal the (zero) initial value when
the block is skipped, so they are recorded unconditionally here. -/
def create_briefing (co : Collabs)
    (x_sources youtube_sources podcast_sources : List String)
    (hours_back : Nat) (xo yto : FetchOutcome) (po : PodFetchOutcome) :
    BriefingResult :=
  let xr := fetch_x x_sources xo
  let yr := fetch_youtube youtube_sources yto
  let pr := fetch_podcasts podcast_sources po
  let x_items := xr.1
  let yt_items := yr.1
  let pod_items := pr.1
  let all_items := x_items ++ yt_items ++ pod_items
  let ytTranscripts :=
    (yt_items.filter (fun i =>
      pyTruthy ((dictGet i.metrics "has_transcript").getD .null))).length
  let taddy :=
    (pod_items.filter (fun i => transcriptStatusIs i "available")).length
  let localT :=
    (pod_items.filter (fun i =>
      transcriptStatusIs i "audio_only" && decide (i.content.length > 500))).length
  let xDone : List StepEntry :=
    if x_items.isEmpty then [] else
      [{ name := "fetch_x", status := "completed",
         count := some x_items.length, sources := some x_sources.length }]
  let ytDone : List StepEntry :=
    if yt_items.isEmpty then [] else
      [{ name := "fetch_youtube", status := "completed",
         count := some yt_items.length, transcripts := some ytTranscripts,
         sources := some youtube_sources.length }]
  let podDone : List StepEntry :=
    if pod_items.isEmpty then [] else
      [{ name := "fetch_podcasts", status := "completed",
         count := some pod_items.length, transcripts_taddy := some taddy,
         transcripts_local := some localT,
         sources := some podcast_sources.length }]
  let stats1 : Stats :=
    { sources_x := x_sources.length,
      sources_youtube := youtube_sources.length,
      sources_podcasts := podcast_sources.length,
      items_fetched_x := x_items.length,
      items_fetched_youtube := yt_items.length,
      items_fetched_podcasts := pod_items.length,
      time_range_hours := hours_back,
      steps := (xr.2.2 ++ yr.2.2 ++ pr.2.2) ++ xDone ++ ytDone ++ podDone,
      transcripts_fetched :=
        if yt_items.isEmpty then none else some ytTranscripts,
      podcast_transcripts_taddy :=
        if pod_items.isEmpty then none else some taddy,
      podcast_transcripts_local :=
        if pod_items.isEmpty then none else some localT,
      podcast_transcripts_description_only :=
        if pod_items.isEmpty then none
        else some (pod_items.length - taddy - localT) }
  if all_items.isEmpty then
    { summary := noContentSummary, items := [], recommendations := [],
      stats := stats1 }
  else
    let storedCount :=
      (all_items.filter (fun i =>
        match co.storeResult i with
        | .ok t => t
        | .raised _ => false)).length
    let stats2 :=
      { stats1 with
        items_stored_vectorstore := some storedCount,
        steps := stats1.steps ++
          ([{ name := "archive_vectorstore", status := "completed",
              stored := some storedCount,
              total := some all_items.length }] : List StepEntry) }
    let stats3 :=
      if co.pendingTranscripts == 0 then stats2 else
        match co.processPending with
        | .ok processed =>
          { stats2 with
            transcripts_summarized := some processed,
            steps := stats2.steps ++
              ([{ name := "summarize_transcripts", status := "completed",
                  processed := some processed,
                  pending := some co.pendingTranscripts }] : List StepEntry) }
        | .error msg =>
          { stats2 with steps := stats2.steps ++
              ([{ name := "summarize_transcripts", status := "failed",
                  error := some msg }] : List StepEntry) }
    let sorted := sortByScoreDesc co.score all_items
    let summary := co.summarize sorted
    let recs := co.recommend sorted x_sources
    let stats4 :=
      { stats3 with steps := stats3.steps ++
          ([{ name := "generate_summary", status := "completed" },
            { name := "generate_recommendations",
              status := "completed" }] : List StepEntry) }
    { summary := summary, items := sorted.take 20,
      recommendations := recs, stats := stats4 }

/-! ## Helper lemmas -/

/-- The progress `UPDATE` never rewrites the key column. -/
theorem updateProgressRow_id (key : String) (p : JVal) (now : Nat)
    (r : JobRow) : (updateProgressRow key p now r).id = r.id := by
  unfold updateProgressRow; split <;> rfl

/-- Looking up `key` after the progress `UPDATE` finds the updated row. -/
theorem findRow_updateProgress (db : DB) (key : String) (p : JVal)
    (now : Nat) :
    findRow (db.map (updateProgressRow key p now)) key
      = (findRow db key).map (fun r =>
          { r with progress := some p, status := "running",
                   started_at := some (r.started_at.getD now) }) := by
  unfold findRow
  induction db with
  | nil => rfl
  | cons r0 rest ih =>
    simp only [List.map_cons, List.find?_cons]
    by_cases h : (r0.id == key) = true
    · have h1 : ((updateProgressRow key p now r0).id == key) = true := by
        rw [updateProgressRow_id]; exact h
      rw [h1, h]
      simp [updateProgressRow, h]
    · have h2 : (r0.id == key) = false := by
        rcases Bool.eq_false_or_eq_true (r0.id == key) with h2 | h2
        · exact absurd h2 h
        · exact h2
      have h1 : ((updateProgressRow key p now r0).id == key) = false := by
        rw [updateProgressRow_id]; exact h2
      rw [h1, h2]
      simpa using ih

/-- A `WHERE id = key` update over a table with no matching row is the
identity. -/
theorem map_unmatched_eq_self (db : DB) (key : String) (g : JobRow → JobRow)
    (hg : ∀ r, r.id ≠ key → g r = r) (h : ∀ r ∈ db, r.id ≠ key) :
    db.map g = db := by
  induction db with
  | nil => rfl
  | cons r0 rest ih =>
    have h0 : g r0 = r0 := hg r0 (h r0 (List.mem_cons_self r0 rest))
    simp only [List.map_cons, h0,
      ih (fun r hr => h r (List.mem_cons_of_mem r0 hr))]

/-- The insertion step of the `created_at DESC` sort is a permutation. -/
theorem insertByCreatedDesc_perm (r : JobRow) (l : List JobRow) :
    List.Perm (insertByCreatedDesc r l) (r :: l) := by
  induction l with
  | nil => exact List.Perm.refl _
  | cons x xs ih =>
    unfold insertByCreatedDesc
    split
    · exact List.Perm.refl _
    · exact (ih.cons x).trans (List.Perm.swap r x xs)

/-- The `created_at DESC` sort is a permutation of the table. -/
theorem sortByCreatedDesc_perm (db : DB) :
    List.Perm (sortByCreatedDesc db) db := by
  induction db with
  | nil => exact List.Perm.refl _
  | cons r rest ih =>
    exact (insertByCreatedDesc_perm r (sortByCreatedDesc rest)).trans (ih.cons r)

/-- The insertion step preserves sortedness (non-increasing
`created_at`). -/
theorem pairwise_insertByCreatedDesc (r : JobRow) (l : List JobRow)
    (h : l.Pairwise (fun a b => b.created_at ≤ a.created_at)) :
    (insertByCreatedDesc r l).Pairwise
      (fun a b => b.created_at ≤ a.created_at) := by
  induction l with
  | nil => simp [insertByCreatedDesc]
  | cons x xs ih =>
    unfold insertByCreatedDesc
    split
    · rename_i hle
      refine List.Pairwise.cons (fun y hy => ?_) h
      rcases List.mem_cons.mp hy with hy | hy
      · exact hy ▸ hle
      · exact le_trans (List.rel_of_pairwise_cons h hy) hle
    · rename_i hgt
      have hrx : r.created_at ≤ x.created_at :=
        le_of_lt (lt_of_not_ge hgt)
      refine List.Pairwise.cons (fun y hy => ?_)
        (ih (List.Pairwise.of_cons h))
      rcases List.mem_cons.mp ((insertByCreatedDesc_perm r xs).mem_iff.mp hy)
        with hy | hy
      · exact hy ▸ hrx
      · exact List.rel_of_pairwise_cons h hy

/-- The `created_at DESC` sort is sorted (non-increasing `created_at`). -/
theorem sortByCreatedDesc_pairwise (db : DB) :
    (sortByCreatedDesc db).Pairwise (fun a b => b.created_at ≤ a.created_at) := by
  induction db with
  | nil => exact List.Pairwise.nil
  | cons r rest ih => exact pairwise_insertByCreatedDesc r _ ih

/-- The sort result is empty exactly for the empty table. -/
theorem sortByCreatedDesc_eq_nil_iff (l : List JobRow) :
    sortByCreatedDesc l = [] ↔ l = [] := by
  constructor
  · intro h
    have hp := sortByCreatedDesc_perm l
    rw [h] at hp
    exact hp.symm.eq_nil
  · intro h
    rw [h]; rfl

/-- The head of the `created_at DESC` sort is a member of the table with
maximal `created_at`. -/
theorem sortByCreatedDesc_head_max (l : List JobRow) (h : JobRow)
    (hh : (sortByCreatedDesc l).head? = some h) :
    h ∈ l ∧ ∀ r ∈ l, r.created_at ≤ h.created_at := by
  cases hs : sortByCreatedDesc l with
  | nil => rw [hs] at hh; cases hh
  | cons a t =>
    rw [hs] at hh
    have ha : a = h := Option.some.inj hh
    subst ha
    have hperm := sortByCreatedDesc_perm l
    rw [hs] at hperm
    constructor
    · exact hperm.mem_iff.mp (List.mem_cons_self a t)
    · intro r hr
      rcases List.mem_cons.mp (hperm.mem_iff.mpr hr) with hr' | hr'
      · rw [hr']
      · have hp := sortByCreatedDesc_pairwise l
        rw [hs] at hp
        exact List.rel_of_pairwise_cons hp hr'

/-- `get_job` after `update_progress`, on the SQLite backend: the looked-up
row is the updated one. -/
theorem get_job_update_progress (db : DB) (id : String) (p : JVal)
    (now : Nat) :
    SQLiteBackend.get_job (SQLiteBackend.update_progress db id p now) id
      = (SQLiteBackend.get_job db id).map (fun r =>
          { r with progress := some p, status := "running",
                   started_at := some (r.started_at.getD now) }) := by
  unfold SQLiteBackend.get_job SQLiteBackend.update_progress
  rw [findRow_updateProgress]
  cases findRow db id with
  | none => rfl
  | some r => rfl

/-- The payload invariant survives a progress `UPDATE` on a row that is not
already terminal. -/
theorem inv_updateProgressRow (key : String) (p : JVal) (now : Nat)
    (r : JobRow) (hinv : jobPayloadInvariant r = true)
    (hleg : (r.id != key) = true ∨ terminalStatus r.status = false) :
    jobPayloadInvariant (updateProgressRow key p now r) = true := by
  unfold updateProgressRow
  by_cases h : (r.id == key) = true
  · rw [if_pos h]
    have hterm : terminalStatus r.status = false := by
      rcases hleg with hleg | hleg
      · rw [bne, h] at hleg; cases hleg
      · exact hleg
    unfold jobPayloadInvariant at hinv
    rw [hterm] at hinv
    simp at hinv
    unfold jobPayloadInvariant
    simp [terminalStatus, hinv.1, hinv.2]
  · rw [if_neg h]; exact hinv

/-- The payload invariant survives `complete_job` on a row that is not
already terminal. -/
theorem inv_completeRow (key : String) (out : JVal) (now : Nat)
    (r : JobRow) (hinv : jobPayloadInvariant r = true)
    (hleg : (r.id != key) = true ∨ terminalStatus r.status = false) :
    jobPayloadInvariant (completeRow key out now r) = true := by
  unfold completeRow
  by_cases h : (r.id == key) = true
  · rw [if_pos h]
    have hterm : terminalStatus r.status = false := by
      rcases hleg with hleg | hleg
      · rw [bne, h] at hleg; cases hleg
      · exact hleg
    unfold jobPayloadInvariant at hinv
    rw [hterm] at hinv
    simp at hinv
    unfold jobPayloadInvariant
    simp [terminalStatus, hinv.2]
  · rw [if_neg h]; exact hinv

/-- The payload invariant survives `fail_job` on a row that is not already
terminal. -/
theorem inv_failRow (key msg : String) (now : Nat)
    (r : JobRow) (hinv : jobPayloadInvariant r = true)
    (hleg : (r.id != key) = true ∨ terminalStatus r.status = false) :
    jobPayloadInvariant (failRow key msg now r) = true := by
  unfold failRow
  by_cases h : (r.id == key) = true
  · rw [if_pos h]
    have hterm : terminalStatus r.status = false := by
      rcases hleg with hleg | hleg
      · rw [bne, h] at hleg; cases hleg
      · exact hleg
    unfold jobPayloadInvariant at hinv
    rw [hterm] at hinv
    simp at hinv
    unfold jobPayloadInvariant
    simp [terminalStatus, hinv.1]
  · rw [if_neg h]; exact hinv

/-- One legal `JobService` call preserves the payload invariant of every
stored row. -/
theorem all_inv_applyOp (db : DB) (op : Op)
    (hinv : db.all jobPayloadInvariant = true)
    (hop : legalOp db op = true) :
    (applyOp db op).all jobPayloadInvariant = true := by
  cases op with
  | create id ty t input src =>
    unfold applyOp JobService.create SQLiteBackend.insert_job
    rw [List.all_append]
    simp only [Bool.and_eq_true]
    refine ⟨hinv, ?_⟩
    simp [insertedRow, jobPayloadInvariant, terminalStatus]
  | updateProgress id p now =>
    have hinv' := List.all_eq_true.mp hinv
    unfold legalOp at hop
    have hop' := List.all_eq_true.mp hop
    refine List.all_eq_true.mpr ?_
    intro x hx
    obtain ⟨r, hr, rfl⟩ := List.mem_map.mp hx
    refine inv_updateProgressRow id p now r (hinv' r hr) ?_
    have := hop' r hr
    simp only [Bool.or_eq_true, Bool.not_eq_true'] at this
    exact this
  | updateStatus id s =>
    unfold legalOp at hop
    cases hop
  | complete id out now =>
    have hinv' := List.all_eq_true.mp hinv
    unfold legalOp at hop
    have hop' := List.all_eq_true.mp hop
    refine List.all_eq_true.mpr ?_
    intro x hx
    obtain ⟨r, hr, rfl⟩ := List.mem_map.mp hx
    refine inv_completeRow id out now r (hinv' r hr) ?_
    have := hop' r hr
    simp only [Bool.or_eq_true, Bool.not_eq_true'] at this
    exact this
  | fail id msg now =>
    have hinv' := List.all_eq_true.mp hinv
    unfold legalOp at hop
    have hop' := List.all_eq_true.mp hop
    refine List.all_eq_true.mpr ?_
    intro x hx
    obtain ⟨r, hr, rfl⟩ := List.mem_map.mp hx
    refine inv_failRow id msg now r (hinv' r hr) ?_
    have := hop' r hr
    simp only [Bool.or_eq_true, Bool.not_eq_true'] at this
    exact this

/-- A legal `JobService` call sequence preserves the payload invariant. -/
theorem all_inv_applyTrace (ops : List Op) : ∀ db : DB,
    db.all jobPayloadInvariant = true → legalTrace db ops = true →
    (applyTrace db ops).all jobPayloadInvariant = true := by
  induction ops with
  | nil =>
    intro db h _
    exact h
  | cons op ops ih =>
    intro db h hlt
    unfold legalTrace at hlt
    rw [Bool.and_eq_true] at hlt
    exact ih (applyOp db op) (all_inv_applyOp db op h hlt.1) hlt.2

/-- A successful PG progress `UPDATE` means the id text parsed as a UUID
and the table was rewritten by the shared `UPDATE` semantics. -/
theorem pg_update_progress_ok (db : DB) (jid : String) (p : JVal) (now : Nat)
    (db' : DB)
    (h : PostgreSQLBackend.update_progress db jid p now = .ok db') :
    ∃ c, pgNormalizeUuid jid = some c ∧
      db' = db.map (updateProgressRow c p now) := by
  unfold PostgreSQLBackend.update_progress at h
  split at h
  · rename_i c hn
    exact ⟨c, hn, (Except.ok.inj h).symm⟩
  · cases h

/-- A successful PG `complete_job` means the id text parsed as a UUID and
the table was rewritten by the shared `UPDATE` semantics. -/
theorem pg_complete_ok (db : DB) (jid : String) (out : JVal) (now : Nat)
    (db' : DB)
    (h : PostgreSQLBackend.complete_job db jid out now = .ok db') :
    ∃ c, pgNormalizeUuid jid = some c ∧
      db' = db.map (completeRow c out now) := by
  unfold PostgreSQLBackend.complete_job at h
  split at h
  · rename_i c hn
    exact ⟨c, hn, (Except.ok.inj h).symm⟩
  · cases h

/-- A successful PG `fail_job` means the id text parsed as a UUID and the
table was rewritten by the shared `UPDATE` semantics. -/
theorem pg_fail_ok (db : DB) (jid msg : String) (now : Nat) (db' : DB)
    (h : PostgreSQLBackend.fail_job db jid msg now = .ok db') :
    ∃ c, pgNormalizeUuid jid = some c ∧
      db' = db.map (failRow c msg now) := by
  unfold PostgreSQLBackend.fail_job at h
  split at h
  · rename_i c hn
    exact ⟨c, hn, (Except.ok.inj h).symm⟩
  · cases h

/-- Defining equation of `pgApplyTrace` on the empty call sequence. -/
theorem pgApplyTrace_nil (db : DB) : pgApplyTrace db [] = .ok db := rfl

/-- Defining equation of `pgApplyTrace` on a non-empty call sequence. -/
theorem pgApplyTrace_cons (db : DB) (op : Op) (ops : List Op) :
    pgApplyTrace db (op :: ops)
      = (pgApplyOp db op).bind (fun db1 => pgApplyTrace db1 ops) := rfl

/-- `pgLegalTrace` on a call sequence whose first call succeeds. -/
theorem pgLegalTrace_cons_ok (db db1 : DB) (op : Op) (ops : List Op)
    (ha : pgApplyOp db op = .ok db1) :
    pgLegalTrace db (op :: ops)
      = (pgLegalOp db op && pgLegalTrace db1 ops) := by
  have h0 : pgLegalTrace db (op :: ops)
      = (pgLegalOp db op &&
          (match pgApplyOp db op with
           | .ok d => pgLegalTrace d ops
           | .error _ => true)) := rfl
  rw [h0, ha]

/-- One legal, driver-accepted `JobService` call on the
PostgreSQL-configured service preserves the payload invariant of every
stored row. -/
theorem pg_all_inv_applyOp (db : DB) (op : Op) (db1 : DB)
    (hinv : db.all jobPayloadInvariant = true)
    (hop : pgLegalOp db op = true)
    (hok : pgApplyOp db op = .ok db1) :
    db1.all jobPayloadInvariant = true := by
  cases op with
  | create id ty t input src =>
    simp only [pgApplyOp] at hok
    unfold PostgreSQLBackend.insert_job at hok
    split at hok
    · have hdb1 := (Except.ok.inj hok).symm
      subst hdb1
      rw [List.all_append]
      simp only [Bool.and_eq_true]
      refine ⟨hinv, ?_⟩
      simp [insertedRow, jobPayloadInvariant, terminalStatus]
    · cases hok
  | updateProgress id p now =>
    simp only [pgApplyOp] at hok
    obtain ⟨c, hn, hdb1⟩ := pg_update_progress_ok db id p now db1 hok
    subst hdb1
    simp only [pgLegalOp] at hop
    split at hop
    · rename_i c' hn'
      rw [hn] at hn'
      obtain rfl : c = c' := Option.some.inj hn'
      have hinv' := List.all_eq_true.mp hinv
      have hop' := List.all_eq_true.mp hop
      refine List.all_eq_true.mpr ?_
      intro x hx
      obtain ⟨r, hr, rfl⟩ := List.mem_map.mp hx
      refine inv_updateProgressRow c p now r (hinv' r hr) ?_
      have := hop' r hr
      simp only [Bool.or_eq_true, Bool.not_eq_true'] at this
      exact this
    · rename_i hn'
      rw [hn] at hn'
      cases hn'
  | updateStatus id s =>
    simp only [pgLegalOp] at hop
    cases hop
  | complete id out now =>
    simp only [pgApplyOp] at hok
    obtain ⟨c, hn, hdb1⟩ := pg_complete_ok db id out now db1 hok
    subst hdb1
    simp only [pgLegalOp] at hop
    split at hop
    · rename_i c' hn'
      rw [hn] at hn'
      obtain rfl : c = c' := Option.some.inj hn'
      have hinv' := List.all_eq_true.mp hinv
      have hop' := List.all_eq_true.mp hop
      refine List.all_eq_true.mpr ?_
      intro x hx
      obtain ⟨r, hr, rfl⟩ := List.mem_map.mp hx
      refine inv_completeRow c out now r (hinv' r hr) ?_
      have := hop' r hr
      simp only [Bool.or_eq_true, Bool.not_eq_true'] at this
      exact this
    · rename_i hn'
      rw [hn] at hn'
      cases hn'
  | fail id msg now =>
    simp only [pgApplyOp] at hok
    obtain ⟨c, hn, hdb1⟩ := pg_fail_ok db id msg now db1 hok
    subst hdb1
    simp only [pgLegalOp] at hop
    split at hop
    · rename_i c' hn'
      rw [hn] at hn'
      obtain rfl : c = c' := Option.some.inj hn'
      have hinv' := List.all_eq_true.mp hinv
      have hop' := List.all_eq_true.mp hop
      refine List.all_eq_true.mpr ?_
      intro x hx
      obtain ⟨r, hr, rfl⟩ := List.mem_map.mp hx
      refine inv_failRow c msg now r (hinv' r hr) ?_
      have := hop' r hr
      simp only [Bool.or_eq_true, Bool.not_eq_true'] at this
      exact this
    · rename_i hn'
      rw [hn] at hn'
      cases hn'

/-- A legal call sequence on the PostgreSQL-configured service that the
driver accepts end-to-end preserves the payload invariant. -/
theorem pg_all_inv_applyTrace (ops : List Op) : ∀ db db'' : DB,
    db.all jobPayloadInvariant = true → pgLegalTrace db ops = true →
    pgApplyTrace db ops = .ok db'' →
    db''.all jobPayloadInvariant = true := by
  induction ops with
  | nil =>
    intro db db'' h _ hrun
    rw [pgApplyTrace_nil] at hrun
    rw [← Except.ok.inj hrun]
    exact h
  | cons op ops ih =>
    intro db db'' h hlt hrun
    rw [pgApplyTrace_cons] at hrun
    cases ha : pgApplyOp db op with
    | error e => rw [ha] at hrun; cases hrun
    | ok db1 =>
      rw [ha] at hrun
      rw [show (Except.ok db1 : Except String DB).bind
        (fun d => pgApplyTrace d ops) = pgApplyTrace db1 ops from rfl] at hrun
      rw [pgLegalTrace_cons_ok db db1 op ops ha, Bool.and_eq_true] at hlt
      exact ih db1 db'' (pg_all_inv_applyOp db op db1 h hlt.1 ha) hlt.2 hrun

/-- A successful PG `get_job` that found a row: the id parsed as a UUID
and the returned record is the decoded stored row. -/
theorem pg_get_job_ok (db : DB) (jid : String) (r : JobRow)
    (h : PostgreSQLBackend.get_job db jid = .ok (some r)) :
    ∃ c r0, pgNormalizeUuid jid = some c ∧ findRow db c = some r0 ∧
      r = PostgreSQLBackend._row_to_job r0 := by
  unfold PostgreSQLBackend.get_job at h
  split at h
  case h_2 => cases h
  case h_1 c hn =>
    have h2 : (findRow db c).map PostgreSQLBackend._row_to_job = some r :=
      Except.ok.inj h
    cases hf : findRow db c with
    | none => rw [hf] at h2; cases h2
    | some r0 =>
      rw [hf] at h2
      exact ⟨c, r0, hn, hf, (Option.some.inj h2).symm⟩

/-- PG `get_job` after the progress `UPDATE`: the looked-up row is the
updated one. -/
theorem pg_get_job_update (db : DB) (jid c : String) (p : JVal) (now : Nat)
    (hn : pgNormalizeUuid jid = some c) :
    PostgreSQLBackend.get_job (db.map (updateProgressRow c p now)) jid
      = .ok ((findRow db c).map (fun r =>
          PostgreSQLBackend._row_to_job
            { r with progress := some p, status := "running",
                     started_at := some (r.started_at.getD now) })) := by
  unfold PostgreSQLBackend.get_job
  rw [hn]
  show Except.ok
      ((findRow (db.map (updateProgressRow c p now)) c).map
        PostgreSQLBackend._row_to_job) = _
  rw [findRow_updateProgress]
  cases findRow db c with
  | none => rfl
  | some r => rfl

/-- An already-set `started_at` survives any sequence of SQLite
`update_progress` calls. -/
theorem run_started_preserved (id : String) (t : Nat) :
    ∀ (calls : List (JVal × Nat)) (db : DB),
      (SQLiteBackend.get_job db id).map (fun r => r.started_at)
        = some (some t) →
      (SQLiteBackend.get_job (runProgressCalls db id calls) id).map
        (fun r => r.started_at) = some (some t) := by
  intro calls
  induction calls with
  | nil => intro db h; exact h
  | cons c cs ih =>
    intro db h
    show (SQLiteBackend.get_job
      (runProgressCalls (SQLiteBackend.update_progress db id c.1 c.2) id cs)
      id).map (fun r => r.started_at) = some (some t)
    refine ih _ ?_
    rw [get_job_update_progress]
    cases hg : SQLiteBackend.get_job db id with
    | none => rw [hg] at h; cases h
    | some r =>
      rw [hg] at h
      have hr : r.started_at = some t := Option.some.inj h
      simp [hr]

/-- Defining equation of `pgRunProgressCalls` on the empty call list. -/
theorem pgRunProgressCalls_nil (db : DB) (jid : String) :
    pgRunProgressCalls db jid [] = .ok db := rfl

/-- Defining equation of `pgRunProgressCalls` on a non-empty call list. -/
theorem pgRunProgressCalls_cons (db : DB) (jid : String) (c : JVal × Nat)
    (cs : List (JVal × Nat)) :
    pgRunProgressCalls db jid (c :: cs)
      = (PostgreSQLBackend.update_progress db jid c.1 c.2).bind
          (fun db1 => pgRunProgressCalls db1 jid cs) := rfl

/-- An already-set `started_at` survives any sequence of PG
`update_progress` calls that the driver accepts. -/
theorem pg_run_started_preserved (jid : String) (t : Nat) :
    ∀ (calls : List (JVal × Nat)) (db db'' : DB) (r : JobRow),
      PostgreSQLBackend.get_job db jid = .ok (some r) →
      r.started_at = some t →
      pgRunProgressCalls db jid calls = .ok db'' →
      ∃ r', PostgreSQLBackend.get_job db'' jid = .ok (some r') ∧
        r'.started_at = some t := by
  intro calls
  induction calls with
  | nil =>
    intro db db'' r hget hst hrun
    rw [pgRunProgressCalls_nil] at hrun
    have hdb : db = db'' := Except.ok.inj hrun
    subst hdb
    exact ⟨r, hget, hst⟩
  | cons c cs ih =>
    intro db db'' r hget hst hrun
    rw [pgRunProgressCalls_cons] at hrun
    cases hu : PostgreSQLBackend.update_progress db jid c.1 c.2 with
    | error e => rw [hu] at hrun; cases hrun
    | ok db1 =>
      rw [hu] at hrun
      rw [show (Except.ok db1 : Except String DB).bind
        (fun db1 => pgRunProgressCalls db1 jid cs)
          = pgRunProgressCalls db1 jid cs from rfl] at hrun
      obtain ⟨c0, hn, hdb1⟩ := pg_update_progress_ok db jid c.1 c.2 db1 hu
      obtain ⟨c1, r0, hn1, hf, hr⟩ := pg_get_job_ok db jid r hget
      rw [hn] at hn1
      have hc : c0 = c1 := Option.some.inj hn1
      subst hc
      have hget1 : PostgreSQLBackend.get_job db1 jid
          = .ok (some (PostgreSQLBackend._row_to_job
              { r0 with progress := some c.1, status := "running",
                        started_at := some (r0.started_at.getD c.2) })) := by
        rw [hdb1, pg_get_job_update db jid c0 c.1 c.2 hn, hf]
        rfl
      have hst0 : r0.started_at = some t := by
        rw [hr] at hst
        exact hst
      refine ih db1 db'' _ hget1 ?_ hrun
      show some (r0.started_at.getD c.2) = some t
      rw [hst0]
      rfl

/-- A first SQLite `update_progress` on a job with null `started_at` sets
it to the call time. -/
theorem started_first_update (db : DB) (id : String) (p : JVal) (now : Nat)
    (h : (SQLiteBackend.get_job db id).map (fun r => r.started_at)
      = some none) :
    (SQLiteBackend.get_job (SQLiteBackend.update_progress db id p now)
      id).map (fun r => r.started_at) = some (some now) := by
  rw [get_job_update_progress]
  cases hg : SQLiteBackend.get_job db id with
  | none => rw [hg] at h; cases h
  | some r =>
    rw [hg] at h
    have hr : r.started_at = none := Option.some.inj h
    simp [hr]

/-- A SQLite `update_progress` on a job with non-null `started_at` leaves
it unchanged. -/
theorem started_preserved_update (db : DB) (id : String) (p : JVal)
    (now t : Nat)
    (h : (SQLiteBackend.get_job db id).map (fun r => r.started_at)
      = some (some t)) :
    (SQLiteBackend.get_job (SQLiteBackend.update_progress db id p now)
      id).map (fun r => r.started_at) = some (some t) := by
  rw [get_job_update_progress]
  cases hg : SQLiteBackend.get_job db id with
  | none => rw [hg] at h; cases h
  | some r =>
    rw [hg] at h
    have hr : r.started_at = some t := Option.some.inj h
    simp [hr]

/-- A first PG `update_progress` on a job with null `started_at` sets it
to the call time. -/
theorem pg_started_first_update (db : DB) (jid : String) (p : JVal)
    (now : Nat) (db' : DB) (r : JobRow)
    (hget : PostgreSQLBackend.get_job db jid = .ok (some r))
    (hst : r.started_at = none)
    (hupd : PostgreSQLBackend.update_progress db jid p now = .ok db') :
    ∃ r', PostgreSQLBackend.get_job db' jid = .ok (some r') ∧
      r'.started_at = some now := by
  obtain ⟨c, hn, hdb'⟩ := pg_update_progress_ok db jid p now db' hupd
  obtain ⟨c1, r0, hn1, hf, hr⟩ := pg_get_job_ok db jid r hget
  rw [hn] at hn1
  obtain rfl : c = c1 := Option.some.inj hn1
  refine ⟨PostgreSQLBackend._row_to_job
    { r0 with progress := some p, status := "running",
              started_at := some (r0.started_at.getD now) }, ?_, ?_⟩
  · rw [hdb', pg_get_job_update db jid c p now hn, hf]
    rfl
  · show some (r0.started_at.getD now) = some now
    have h0 : r0.started_at = none := by rw [hr] at hst; exact hst
    rw [h0]
    rfl

/-- A PG `update_progress` on a job with non-null `started_at` leaves it
unchanged. -/
theorem pg_started_preserved_update (db : DB) (jid : String) (p : JVal)
    (now t : Nat) (db' : DB) (r : JobRow)
    (hget : PostgreSQLBackend.get_job db jid = .ok (some r))
    (hst : r.started_at = some t)
    (hupd : PostgreSQLBackend.update_progress db jid p now = .ok db') :
    ∃ r', PostgreSQLBackend.get_job db' jid = .ok (some r') ∧
      r'.started_at = some t := by
  obtain ⟨c, hn, hdb'⟩ := pg_update_progress_ok db jid p now db' hupd
  obtain ⟨c1, r0, hn1, hf, hr⟩ := pg_get_job_ok db jid r hget
  rw [hn] at hn1
  obtain rfl : c = c1 := Option.some.inj hn1
  refine ⟨PostgreSQLBackend._row_to_job
    { r0 with progress := some p, status := "running",
              started_at := some (r0.started_at.getD now) }, ?_, ?_⟩
  · rw [hdb', pg_get_job_update db jid c p now hn, hf]
    rfl
  · show some (r0.started_at.getD now) = some t
    have h0 : r0.started_at = some t := by rw [hr] at hst; exact hst
    rw [h0]
    rfl

/-! ## Claim theorems -/

/-- C1: for every job and every sequence of `update_progress` calls, the
first call sets `started_at` to the call time because it was null, and
every subsequent call leaves it unchanged (`COALESCE(started_at, now)`),
on both the SQLite and the PostgreSQL backend. -/
theorem started_at_set_once :
    (∀ (db : DB) (id : String) (p : JVal) (now : Nat),
      (SQLiteBackend.get_job db id).map (fun r => r.started_at)
          = some none →
      (SQLiteBackend.get_job (SQLiteBackend.update_progress db id p now)
        id).map (fun r => r.started_at) = some (some now))
  ∧ (∀ (db : DB) (id : String) (p : JVal) (now t : Nat),
      (SQLiteBackend.get_job db id).map (fun r => r.started_at)
          = some (some t) →
      (SQLiteBackend.get_job (SQLiteBackend.update_progress db id p now)
        id).map (fun r => r.started_at) = some (some t))
  ∧ (∀ (db : DB) (id : String) (p : JVal) (now : Nat)
        (calls : List (JVal × Nat)),
      (SQLiteBackend.get_job db id).map (fun r => r.started_at)
          = some none →
      (SQLiteBackend.get_job (runProgressCalls db id ((p, now) :: calls))
        id).map (fun r => r.started_at) = some (some now))
  ∧ (∀ (db : DB) (jid : String) (p : JVal) (now : Nat) (db' : DB)
        (r : JobRow),
      PostgreSQLBackend.get_job db jid = .ok (some r) →
      r.started_at = none →
      PostgreSQLBackend.update_progress db jid p now = .ok db' →
      ∃ r', PostgreSQLBackend.get_job db' jid = .ok (some r') ∧
        r'.started_at = some now)
  ∧ (∀ (db : DB) (jid : String) (p : JVal) (now t : Nat) (db' : DB)
        (r : JobRow),
      PostgreSQLBackend.get_job db jid = .ok (some r) →
      r.started_at = some t →
      PostgreSQLBackend.update_progress db jid p now = .ok db' →
      ∃ r', PostgreSQLBackend.get_job db' jid = .ok (some r') ∧
        r'.started_at = some t)
  ∧ (∀ (db : DB) (jid : String) (p : JVal) (now : Nat)
        (calls : List (JVal × Nat)) (db'' : DB) (r : JobRow),
      PostgreSQLBackend.get_job db jid = .ok (some r) →
      r.started_at = none →
      pgRunProgressCalls db jid ((p, now) :: calls) = .ok db'' →
      ∃ r', PostgreSQLBackend.get_job db'' jid = .ok (some r') ∧
        r'.started_at = some now) := by
  refine ⟨started_first_update, started_preserved_update, ?_,
    pg_started_first_update, pg_started_preserved_update, ?_⟩
  · intro db id p now calls h
    show (SQLiteBackend.get_job
      (runProgressCalls (SQLiteBackend.update_progress db id p now) id calls)
      id).map (fun r => r.started_at) = some (some now)
    exact run_started_preserved id now calls _
      (started_first_update db id p now h)
  · intro db jid p now calls db'' r hget hst hrun
    rw [pgRunProgressCalls_cons] at hrun
    cases hu : PostgreSQLBackend.update_progress db jid p now with
    | error e => rw [hu] at hrun; cases hrun
    | ok db1 =>
      rw [hu] at hrun
      rw [show (Except.ok db1 : Except String DB).bind
        (fun d => pgRunProgressCalls d jid calls)
          = pgRunProgressCalls db1 jid calls from rfl] at hrun
      obtain ⟨r', hget1, hst1⟩ :=
        pg_started_first_update db jid p now db1 r hget hst hu
      exact pg_run_started_preserved jid now calls db1 db'' r' hget1 hst1 hrun

/-- Witness for C1 at concrete inputs: a fresh pending job, a first
`update_progress` at time 7 and a second at time 9, on both backends. -/
theorem started_at_set_once_witness :
    ((SQLiteBackend.get_job
        (SQLiteBackend.update_progress
          [{ id := "a", type := "briefing", status := "pending",
             created_at := 0 }] "a" (JVal.str "s") 7)
        "a").map (fun r => r.started_at) = some (some 7))
  ∧ ((SQLiteBackend.get_job
        (SQLiteBackend.update_progress
          (SQLiteBackend.update_progress
            [{ id := "a", type := "briefing", status := "pending",
               created_at := 0 }] "a" (JVal.str "s") 7)
          "a" (JVal.str "u") 9)
        "a").map (fun r => r.started_at) = some (some 7))
  ∧ ((SQLiteBackend.get_job
        (runProgressCalls
          [{ id := "a", type := "briefing", status := "pending",
             created_at := 0 }] "a"
          [(JVal.str "s", 7), (JVal.str "u", 9)])
        "a").map (fun r => r.started_at) = some (some 7))
  ∧ (∃ r', PostgreSQLBackend.get_job
        [{ id := "00000000-0000-4000-8000-000000000111", type := "briefing",
           status := "running", created_at := 0, started_at := some 7,
           progress := some (JVal.str "s") }]
        "00000000-0000-4000-8000-000000000111" = .ok (some r') ∧
      r'.started_at = some 7) := by
  refine ⟨?_, ?_, ?_, ?_⟩
  · exact started_at_set_once.1
      [{ id := "a", type := "briefing", status := "pending",
         created_at := 0 }] "a" (JVal.str "s") 7 rfl
  · exact started_at_set_once.2.1
      (SQLiteBackend.update_progress
        [{ id := "a", type := "briefing", status := "pending",
           created_at := 0 }] "a" (JVal.str "s") 7)
      "a" (JVal.str "u") 9 7 (by rfl)
  · exact started_at_set_once.2.2.1
      [{ id := "a", type := "briefing", status := "pending",
         created_at := 0 }] "a" (JVal.str "s") 7 [(JVal.str "u", 9)] rfl
  · exact started_at_set_once.2.2.2.1
      [{ id := "00000000-0000-4000-8000-000000000111", type := "briefing",
         status := "pending", created_at := 0 }]
      "00000000-0000-4000-8000-000000000111" (JVal.str "s") 7 _
      { id := "00000000-0000-4000-8000-000000000111", type := "briefing",
        status := "pending", created_at := 0 }
      (by rfl) rfl (by rfl)

/-- C2 (amended): `update_progress(id, p)` replaces the stored progress
payload wholesale (nothing of any earlier payload survives) and forces the
status to RUNNING, on both backends.  A subsequent `get` returns progress
exactly `p` on the SQLite backend; on the PostgreSQL backend it returns the
JSON *text* of `p` (asyncpg decodes `JSONB` columns as `str` — no codec is
registered), not the mapping itself. -/
theorem progress_replaced_wholesale :
    (∀ (db : DB) (id : String) (p : JVal) (now : Nat) (r : JobRow),
      SQLiteBackend.get_job db id = some r →
      ∃ r', SQLiteBackend.get_job
          (SQLiteBackend.update_progress db id p now) id = some r' ∧
        r'.status = "running" ∧ r'.progress = some p)
  ∧ (∀ (db : DB) (jid : String) (p : JVal) (now : Nat) (db' : DB)
        (r : JobRow),
      PostgreSQLBackend.get_job db jid = .ok (some r) →
      PostgreSQLBackend.update_progress db jid p now = .ok db' →
      ∃ r', PostgreSQLBackend.get_job db' jid = .ok (some r') ∧
        r'.status = "running" ∧
        r'.progress = some (JVal.str (dumps p))) := by
  constructor
  · intro db id p now r hget
    rw [get_job_update_progress, hget]
    exact ⟨_, rfl, rfl, rfl⟩
  · intro db jid p now db' r hget hupd
    obtain ⟨c, hn, hdb'⟩ := pg_update_progress_ok db jid p now db' hupd
    obtain ⟨c1, r0, hn1, hf, hr⟩ := pg_get_job_ok db jid r hget
    rw [hn] at hn1
    obtain rfl : c = c1 := Option.some.inj hn1
    refine ⟨PostgreSQLBackend._row_to_job
      { r0 with progress := some p, status := "running",
                started_at := some (r0.started_at.getD now) }, ?_, rfl, rfl⟩
    rw [hdb', pg_get_job_update db jid c p now hn, hf]
    rfl

/-- Counterexample for C2 as stated: on the PostgreSQL backend, after
`update_progress` with the map `{"step": "fetching"}`, `get_job` returns
the row with `progress` equal to the JSON string, which is not the map. -/
theorem progress_replaced_wholesale_pg_counterexample :
    (PostgreSQLBackend.update_progress
        [{ id := "00000000-0000-4000-8000-000000000111", type := "briefing",
           status := "pending", created_at := 0 }]
        "00000000-0000-4000-8000-000000000111"
        (JVal.obj [("step", JVal.str "fetching")]) 5
      = .ok
        [{ id := "00000000-0000-4000-8000-000000000111", type := "briefing",
           status := "running", created_at := 0, started_at := some 5,
           progress := some (JVal.obj [("step", JVal.str "fetching")]) }])
  ∧ (PostgreSQLBackend.get_job
        [{ id := "00000000-0000-4000-8000-000000000111", type := "briefing",
           status := "running", created_at := 0, started_at := some 5,
           progress := some (JVal.obj [("step", JVal.str "fetching")]) }]
        "00000000-0000-4000-8000-000000000111"
      = .ok (some
        { id := "00000000-0000-4000-8000-000000000111", type := "briefing",
          status := "running", created_at := 0, started_at := some 5,
          progress := some (JVal.str "\x7b\"step\": \"fetching\"\x7d") }))
  ∧ some (JVal.str "\x7b\"step\": \"fetching\"\x7d")
      ≠ some (JVal.obj [("step", JVal.str "fetching")]) :=
  ⟨rfl, rfl, fun h => JVal.noConfusion (Option.some.inj h)⟩

/-- Witness for C2 at concrete inputs: one pending job on each backend and
one `update_progress` call with the map `{"step": "fetching"}`. -/
theorem progress_replaced_wholesale_witness :
    (∃ r', SQLiteBackend.get_job
        (SQLiteBackend.update_progress
          [{ id := "a", type := "briefing", status := "pending",
             created_at := 0 }] "a"
          (JVal.obj [("step", JVal.str "fetching")]) 5) "a" = some r' ∧
      r'.status = "running" ∧
      r'.progress = some (JVal.obj [("step", JVal.str "fetching")]))
  ∧ (∃ r', PostgreSQLBackend.get_job
        [{ id := "00000000-0000-4000-8000-000000000111", type := "briefing",
           status := "running", created_at := 0, started_at := some 5,
           progress := some (JVal.obj [("step", JVal.str "fetching")]) }]
        "00000000-0000-4000-8000-000000000111" = .ok (some r') ∧
      r'.status = "running" ∧
      r'.progress = some (JVal.str (dumps
        (JVal.obj [("step", JVal.str "fetching")])))) := by
  constructor
  · exact progress_replaced_wholesale.1
      [{ id := "a", type := "briefing", status := "pending",
         created_at := 0 }] "a" (JVal.obj [("step", JVal.str "fetching")]) 5
      { id := "a", type := "briefing", status := "pending", created_at := 0 }
      rfl
  · exact progress_replaced_wholesale.2
      [{ id := "00000000-0000-4000-8000-000000000111", type := "briefing",
         status := "pending", created_at := 0 }]
      "00000000-0000-4000-8000-000000000111"
      (JVal.obj [("step", JVal.str "fetching")]) 5 _
      { id := "00000000-0000-4000-8000-000000000111", type := "briefing",
        status := "pending", created_at := 0 }
      (by rfl) (by rfl)

/-- Counterexample for C3 as stated: the sequence `create; complete; fail`
issued through the Job Service leaves a terminal (FAILED) job with *both*
`output` and `error` non-null — the backends do not guard terminal rows, so
the invariant fails for this operation sequence. -/
theorem payload_invariant_counterexample :
    (applyTrace []
      [Op.create "a" "briefing" 0 none "local",
       Op.complete "a" (JVal.obj [("items", JVal.num 42)]) 1,
       Op.fail "a" "Network timeout" 2]).all jobPayloadInvariant
      = false := rfl

/-- C3 (amended): on both backends, for every operation sequence issued
through the Job Service in which `update_status` is never used, every
`create` uses a fresh id, and no mutation targets a job that is already
terminal, every stored row satisfies the payload invariant: once terminal
exactly one of `output`/`error` is non-null, and while non-terminal neither
is.  (On the PostgreSQL backend a call whose id fails the `::uuid` cast
raises and aborts the sequence; the invariant holds for every table state
the service successfully produces.) -/
theorem payload_invariant_legal_traces :
    (∀ ops : List Op, legalTrace [] ops = true →
      (applyTrace [] ops).all jobPayloadInvariant = true)
  ∧ (∀ (ops : List Op) (db'' : DB), pgLegalTrace [] ops = true →
      pgApplyTrace [] ops = .ok db'' →
      db''.all jobPayloadInvariant = true) :=
  ⟨fun ops h => all_inv_applyTrace ops [] rfl h,
   fun ops db'' hl hr => pg_all_inv_applyTrace ops [] db'' rfl hl hr⟩

/-- Witness for C3 at a concrete legal trace on each backend: two jobs,
one completed after a progress update, one failed directly from PENDING. -/
theorem payload_invariant_legal_traces_witness :
    ((applyTrace []
      [Op.create "a" "briefing" 0 none "local",
       Op.updateProgress "a" (JVal.str "fetching") 1,
       Op.complete "a" (JVal.obj [("items", JVal.num 42)]) 2,
       Op.create "b" "briefing" 3 none "local",
       Op.fail "b" "Network timeout" 4]).all jobPayloadInvariant = true)
  ∧ (∃ db'', pgApplyTrace []
      [Op.create "00000000-0000-4000-8000-000000000001" "briefing" 0 none
         "local",
       Op.updateProgress "00000000-0000-4000-8000-000000000001"
         (JVal.str "fetching") 1,
       Op.complete "00000000-0000-4000-8000-000000000001"
         (JVal.obj [("items", JVal.num 42)]) 2,
       Op.create "00000000-0000-4000-8000-000000000002" "briefing" 3 none
         "local",
       Op.fail "00000000-0000-4000-8000-000000000002" "Network timeout" 4]
      = .ok db'' ∧ db''.all jobPayloadInvariant = true) :=
  ⟨payload_invariant_legal_traces.1
    [Op.create "a" "briefing" 0 none "local",
     Op.updateProgress "a" (JVal.str "fetching") 1,
     Op.complete "a" (JVal.obj [("items", JVal.num 42)]) 2,
     Op.create "b" "briefing" 3 none "local",
     Op.fail "b" "Network timeout" 4] rfl,
   ⟨_, rfl,
    payload_invariant_legal_traces.2
      [Op.create "00000000-0000-4000-8000-000000000001" "briefing" 0 none
         "local",
       Op.updateProgress "00000000-0000-4000-8000-000000000001"
         (JVal.str "fetching") 1,
       Op.complete "00000000-0000-4000-8000-000000000001"
         (JVal.obj [("items", JVal.num 42)]) 2,
       Op.create "00000000-0000-4000-8000-000000000002" "briefing" 3 none
         "local",
       Op.fail "00000000-0000-4000-8000-000000000002" "Network timeout" 4]
      _ rfl rfl⟩⟩

/-- C9: evaluation of the code at the failing input.  `create` with the
empty (falsy) input map `{}` stores SQL `NULL` because of the truthiness
test `json.dumps(job.input) if job.input else None`, so a subsequent `get`
returns `input = None`, not the `{}` that was written (the repository's own
`test_empty_params` expects `{}` back). -/
theorem empty_input_not_roundtripped :
    ((JobService.get
      (JobService.create [] "11111111-1111-4111-8111-111111111111"
        "briefing" (some (JVal.obj [])) 0 "local").1
      "11111111-1111-4111-8111-111111111111").map (fun r => r.input)
      = some none)
  ∧ (some (JVal.obj []) : Option JVal) ≠ none :=
  ⟨rfl, fun h => Option.noConfusion h⟩

/-- C4 (amended): `get_job` never interpolates the id and returns
not-found for every unmatched id string on the SQLite backend; on the
PostgreSQL backend it returns not-found for unmatched *well-formed* UUID
ids, but an id that is not valid UUID text makes the `$1::uuid` cast raise
`invalid input syntax for type uuid` instead of returning not-found. -/
theorem get_job_not_found :
    (∀ (db : DB) (id : String), (∀ r ∈ db, r.id ≠ id) →
      SQLiteBackend.get_job db id = none)
  ∧ (∀ (db : DB) (jid c : String), pgNormalizeUuid jid = some c →
      (∀ r ∈ db, r.id ≠ c) →
      PostgreSQLBackend.get_job db jid = .ok none)
  ∧ (∀ (db : DB) (jid : String), pgNormalizeUuid jid = none →
      PostgreSQLBackend.get_job db jid
        = .error PostgreSQLBackend.uuidCastError) := by
  have hfind : ∀ (db : DB) (key : String), (∀ r ∈ db, r.id ≠ key) →
      findRow db key = none := by
    intro db key h
    unfold findRow
    rw [List.find?_eq_none]
    intro x hx
    simp [h x hx]
  refine ⟨?_, ?_, ?_⟩
  · intro db id h
    unfold SQLiteBackend.get_job
    rw [hfind db id h]
    rfl
  · intro db jid c hn h
    unfold PostgreSQLBackend.get_job
    rw [hn]
    show Except.ok ((findRow db c).map PostgreSQLBackend._row_to_job) = _
    rw [hfind db c h]
    rfl
  · intro db jid hn
    unfold PostgreSQLBackend.get_job
    rw [hn]

/-- Counterexample for C4 as stated: on the PostgreSQL backend a
SQL-metacharacter-laden id raises the uuid-cast error rather than
returning not-found. -/
theorem get_job_not_found_pg_counterexample :
    PostgreSQLBackend.get_job [] "; DROP TABLE jobs; --"
      = .error PostgreSQLBackend.uuidCastError := rfl

/-- Witness for C4 at concrete inputs: a path-traversal-shaped id against
SQLite, an unmatched well-formed UUID against PostgreSQL, and a malformed
id against PostgreSQL. -/
theorem get_job_not_found_witness :
    (SQLiteBackend.get_job
      [{ id := "a", type := "briefing", status := "pending",
         created_at := 0 }] "../etc/passwd" = none)
  ∧ (PostgreSQLBackend.get_job
      [{ id := "00000000-0000-4000-8000-000000000111", type := "briefing",
         status := "pending", created_at := 0 }]
      "00000000-0000-4000-8000-000000000999" = .ok none)
  ∧ (PostgreSQLBackend.get_job
      [{ id := "00000000-0000-4000-8000-000000000111", type := "briefing",
         status := "pending", created_at := 0 }] "not-a-uuid"
      = .error PostgreSQLBackend.uuidCastError) := by
  refine ⟨?_, ?_, ?_⟩
  · exact get_job_not_found.1
      [{ id := "a", type := "briefing", status := "pending",
         created_at := 0 }] "../etc/passwd" (by decide)
  · exact get_job_not_found.2.1
      [{ id := "00000000-0000-4000-8000-000000000111", type := "briefing",
         status := "pending", created_at := 0 }]
      "00000000-0000-4000-8000-000000000999"
      "00000000-0000-4000-8000-000000000999" (by rfl) (by decide)
  · exact get_job_not_found.2.2
      [{ id := "00000000-0000-4000-8000-000000000111", type := "briefing",
         status := "pending", created_at := 0 }] "not-a-uuid" (by rfl)

/-- C7: `get_active_job()` returns not-found exactly when no stored job has
status PENDING or RUNNING; otherwise it returns a record drawn from the
PENDING/RUNNING rows whose `created_at` is maximal (most recent), on both
backends (`ORDER BY created_at DESC LIMIT 1`). -/
theorem get_active_job_spec (db : DB) :
    (SQLiteBackend.get_active_job db = none ↔ ∀ r ∈ db, isActive r = false)
  ∧ (∀ j, SQLiteBackend.get_active_job db = some j →
      ∃ r ∈ db, SQLiteBackend._row_to_job r = j ∧ isActive r = true ∧
        ∀ r' ∈ db, isActive r' = true → r'.created_at ≤ r.created_at)
  ∧ (PostgreSQLBackend.get_active_job db = none ↔
      ∀ r ∈ db, isActive r = false)
  ∧ (∀ j, PostgreSQLBackend.get_active_job db = some j →
      ∃ r ∈ db, PostgreSQLBackend._row_to_job r = j ∧ isActive r = true ∧
        ∀ r' ∈ db, isActive r' = true → r'.created_at ≤ r.created_at) := by
  have hnone : (sortByCreatedDesc (db.filter isActive)).head? = none ↔
      ∀ r ∈ db, isActive r = false := by
    rw [List.head?_eq_none_iff, sortByCreatedDesc_eq_nil_iff,
      List.filter_eq_nil_iff]
    constructor
    · intro h r hr
      have := h r hr
      rcases Bool.eq_false_or_eq_true (isActive r) with h2 | h2
      · exact absurd h2 this
      · exact h2
    · intro h r hr
      rw [h r hr]
      exact Bool.false_ne_true
  have hsome : ∀ h, (sortByCreatedDesc (db.filter isActive)).head? = some h →
      h ∈ db ∧ isActive h = true ∧
        ∀ r ∈ db, isActive r = true → r.created_at ≤ h.created_at := by
    intro h hh
    obtain ⟨hmem, hmax⟩ := sortByCreatedDesc_head_max (db.filter isActive) h hh
    obtain ⟨hdb, hact⟩ := List.mem_filter.mp hmem
    exact ⟨hdb, hact, fun r hr hra =>
      hmax r (List.mem_filter.mpr ⟨hr, hra⟩)⟩
  refine ⟨?_, ?_, ?_, ?_⟩
  · unfold SQLiteBackend.get_active_job
    rw [Option.map_eq_none']
    exact hnone
  · intro j hj
    unfold SQLiteBackend.get_active_job at hj
    cases hh : (sortByCreatedDesc (db.filter isActive)).head? with
    | none => rw [hh] at hj; cases hj
    | some h =>
      rw [hh] at hj
      obtain ⟨hdb, hact, hmax⟩ := hsome h hh
      exact ⟨h, hdb, Option.some.inj hj, hact, hmax⟩
  · unfold PostgreSQLBackend.get_active_job
    rw [Option.map_eq_none']
    exact hnone
  · intro j hj
    unfold PostgreSQLBackend.get_active_job at hj
    cases hh : (sortByCreatedDesc (db.filter isActive)).head? with
    | none => rw [hh] at hj; cases hj
    | some h =>
      rw [hh] at hj
      obtain ⟨hdb, hact, hmax⟩ := hsome h hh
      exact ⟨h, hdb, Option.some.inj hj, hact, hmax⟩

/-- Witness for C7 at a concrete table: a completed old job, a pending job
and a newer running job — the running (newest active) one is returned. -/
theorem get_active_job_spec_witness :
    (∃ r ∈ [{ id := "a", type := "briefing", status := "completed", created_at := 5, output := some (JVal.num 1) }, { id := "b", type := "briefing", status := "pending", created_at := 1 }, { id := "c", type := "briefing", status := "running", created_at := 3 }],
      SQLiteBackend._row_to_job r = { id := "c", type := "briefing", status := "running", created_at := 3 } ∧ isActive r = true ∧
        ∀ r' ∈ [{ id := "a", type := "briefing", status := "completed", created_at := 5, output := some (JVal.num 1) }, { id := "b", type := "briefing", status := "pending", created_at := 1 }, ({ id := "c", type := "briefing", status := "running", created_at := 3 } : JobRow)],
          isActive r' = true → r'.created_at ≤ r.created_at) :=
  (get_active_job_spec
    [{ id := "a", type := "briefing", status := "completed", created_at := 5, output := some (JVal.num 1) }, { id := "b", type := "briefing", status := "pending", created_at := 1 }, { id := "c", type := "briefing", status := "running", created_at := 3 }]).2.1
    { id := "c", type := "briefing", status := "running", created_at := 3 }
    rfl

/-- C8: `list_recent(limit)` returns at most `limit` records, ordered by
`created_at` descending, and `list_recent(0)` is the empty list, on both
backends. -/
theorem list_recent_spec (db : DB) (limit : Nat) :
    ((SQLiteBackend.list_recent db limit).length ≤ limit)
  ∧ (SQLiteBackend.list_recent db limit).Pairwise
      (fun a b => b.created_at ≤ a.created_at)
  ∧ SQLiteBackend.list_recent db 0 = []
  ∧ ((PostgreSQLBackend.list_recent db limit).length ≤ limit)
  ∧ (PostgreSQLBackend.list_recent db limit).Pairwise
      (fun a b => b.created_at ≤ a.created_at)
  ∧ PostgreSQLBackend.list_recent db 0 = [] := by
  have hlen : ((sortByCreatedDesc db).take limit).length ≤ limit := by
    rw [List.length_take]
    exact min_le_left _ _
  have hpw : ((sortByCreatedDesc db).take limit).Pairwise
      (fun a b => b.created_at ≤ a.created_at) :=
    List.Pairwise.sublist (List.take_sublist limit _)
      (sortByCreatedDesc_pairwise db)
  refine ⟨?_, ?_, rfl, ?_, ?_, rfl⟩
  · unfold SQLiteBackend.list_recent
    rw [List.length_map]
    exact hlen
  · exact List.pairwise_map.mpr hpw
  · unfold PostgreSQLBackend.list_recent
    rw [List.length_map]
    exact hlen
  · exact List.pairwise_map.mpr hpw

/-- C10: mutation operations issued through the (SQLite-backed) Job
Service with an id that matches no stored record return normally (their
return type carries no not-found signal), and leave the stored table
unchanged — the `UPDATE` silently affects zero rows. -/
theorem unmatched_id_mutations_noop :
    ∀ (db : DB) (id : String) (p : JVal) (s : String) (out : JVal)
      (err : String) (n1 n2 n3 : Nat),
      (∀ r ∈ db, r.id ≠ id) →
      JobService.update_progress db id p n1 = db ∧
      JobService.update_status db id s = db ∧
      JobService.complete db id out n2 = db ∧
      JobService.fail db id err n3 = db := by
  intro db id p s out err n1 n2 n3 h
  refine ⟨map_unmatched_eq_self db id _ ?_ h,
    map_unmatched_eq_self db id _ ?_ h,
    map_unmatched_eq_self db id _ ?_ h,
    map_unmatched_eq_self db id _ ?_ h⟩
  · intro r hr
    unfold updateProgressRow
    rw [if_neg (by simp [hr])]
  · intro r hr
    unfold updateStatusRow
    rw [if_neg (by simp [hr])]
  · intro r hr
    unfold completeRow
    rw [if_neg (by simp [hr])]
  · intro r hr
    unfold failRow
    rw [if_neg (by simp [hr])]

/-- Witness for C10 at a concrete table and an unmatched id. -/
theorem unmatched_id_mutations_noop_witness :
    JobService.update_progress
      [{ id := "a", type := "briefing", status := "pending",
         created_at := 0 }] "missing" (JVal.str "s") 1
      = [{ id := "a", type := "briefing", status := "pending",
           created_at := 0 }] ∧
    JobService.update_status
      [{ id := "a", type := "briefing", status := "pending",
         created_at := 0 }] "missing" "cancelled"
      = [{ id := "a", type := "briefing", status := "pending",
           created_at := 0 }] ∧
    JobService.complete
      [{ id := "a", type := "briefing", status := "pending",
         created_at := 0 }] "missing" (JVal.obj []) 2
      = [{ id := "a", type := "briefing", status := "pending",
           created_at := 0 }] ∧
    JobService.fail
      [{ id := "a", type := "briefing", status := "pending",
         created_at := 0 }] "missing" "boom" 3
      = [{ id := "a", type := "briefing", status := "pending",
           created_at := 0 }] :=
  unmatched_id_mutations_noop
    [{ id := "a", type := "briefing", status := "pending", created_at := 0 }]
    "missing" (JVal.str "s") "cancelled" (JVal.obj []) "boom" 1 2 3
    (by decide)

/-- Counterexample for C5 as stated: not every platform fetch is bounded by
its own timeout — the X and YouTube fetches are wrapped in `asyncio.wait_for`
(60 s / 120 s), but the podcast fetch awaits the adapter directly with no
timeout at all. -/
theorem fetch_timeouts_counterexample :
    ¬(xFetchTimeoutSeconds.isSome = true ∧
      youtubeFetchTimeoutSeconds.isSome = true ∧
      podcastFetchTimeoutSeconds.isSome = true) := by
  decide

/-- C5 (amended): the X and YouTube fetches are each bounded by their own
independent timeout (60 s and 120 s); the podcast fetch has no timeout.  For
every platform, a timeout or raised exception during the fetch yields zero
items for that platform with the recorded `timeout`/`failed` status (the
handlers return normally, so nothing propagates out of `create_briefing`;
the three fetches are separate tasks joined by `asyncio.gather`). -/
theorem fetch_timeout_degradation :
    xFetchTimeoutSeconds = some 60
  ∧ youtubeFetchTimeoutSeconds = some 120
  ∧ podcastFetchTimeoutSeconds = none
  ∧ (∀ (s : String) (rest : List String),
      (fetch_x (s :: rest) .timedOut).1 = []
      ∧ (fetch_x (s :: rest) .timedOut).2.1.status = .timeout)
  ∧ (∀ (s msg : String) (rest : List String),
      (fetch_x (s :: rest) (.raised msg)).1 = []
      ∧ (fetch_x (s :: rest) (.raised msg)).2.1.status = .failed)
  ∧ (∀ (s : String) (rest : List String),
      (fetch_youtube (s :: rest) .timedOut).1 = []
      ∧ (fetch_youtube (s :: rest) .timedOut).2.1.status = .timeout)
  ∧ (∀ (s msg : String) (rest : List String),
      (fetch_youtube (s :: rest) (.raised msg)).1 = []
      ∧ (fetch_youtube (s :: rest) (.raised msg)).2.1.status = .failed)
  ∧ (∀ (s msg : String) (rest : List String),
      (fetch_podcasts (s :: rest) (.raised msg)).1 = []
      ∧ (fetch_podcasts (s :: rest) (.raised msg)).2.1.status = .failed) :=
  ⟨rfl, rfl, rfl,
   fun _ _ => ⟨rfl, rfl⟩, fun _ _ _ => ⟨rfl, rfl⟩,
   fun _ _ => ⟨rfl, rfl⟩, fun _ _ _ => ⟨rfl, rfl⟩,
   fun _ _ _ => ⟨rfl, rfl⟩⟩

/-- C6: when every platform contributes zero items (failure, timeout, skip
or an empty result), `create_briefing` returns the defined "no content
found" payload — empty items and recommendations, the accumulated stats
with the per-platform failure steps — rather than raising. -/
theorem create_briefing_no_content :
    ∀ (co : Collabs) (xs ys ps : List String) (hours : Nat)
      (xo yto : FetchOutcome) (po : PodFetchOutcome),
      (fetch_x xs xo).1 = [] →
      (fetch_youtube ys yto).1 = [] →
      (fetch_podcasts ps po).1 = [] →
      create_briefing co xs ys ps hours xo yto po
        = { summary := noContentSummary, items := [], recommendations := [],
            stats :=
              { sources_x := xs.length, sources_youtube := ys.length,
                sources_podcasts := ps.length, items_fetched_x := 0,
                items_fetched_youtube := 0, items_fetched_podcasts := 0,
                time_range_hours := hours,
                steps := (fetch_x xs xo).2.2 ++ (fetch_youtube ys yto).2.2
                  ++ (fetch_podcasts ps po).2.2 } } := by
  intro co xs ys ps hours xo yto po hx hy hp
  unfold create_briefing
  simp [hx, hy, hp]

/-- Witness for C6 at concrete inputs: X times out, YouTube has no sources
configured, the podcast fetch raises — the pipeline returns the no-content
payload with the two failure steps recorded. -/
theorem create_briefing_no_content_witness :
    create_briefing
      { score := fun _ => 0, storeResult := fun _ => .ok true,
        pendingTranscripts := 0, processPending := .ok 0,
        summarize := fun _ => "sum", recommend := fun _ _ => [] }
      ["x1"] [] ["p1"] 24 .timedOut (.ok []) (.raised "boom")
      = { summary := noContentSummary, items := [], recommendations := [],
          stats :=
            { sources_x := 1, sources_youtube := 0, sources_podcasts := 1,
              items_fetched_x := 0, items_fetched_youtube := 0,
              items_fetched_podcasts := 0, time_range_hours := 24,
              steps := [{ name := "fetch_x", status := "timeout" },
                        { name := "fetch_podcasts", status := "failed",
                          error := some "boom" }] } } := by
  rw [create_briefing_no_content
    { score := fun _ => 0, storeResult := fun _ => .ok true,
      pendingTranscripts := 0, processPending := .ok 0,
      summarize := fun _ => "sum", recommend := fun _ _ => [] }
    ["x1"] [] ["p1"] 24 .timedOut (.ok []) (.raised "boom") rfl rfl rfl]
  rfl

end Briefly
